import Mathlib

/-!
Verification of the FintechKit reliability layer (package `reliability` and
`pkg/client/factory.go`) against its natural-language specification.

The Go code is shallowly embedded:
* Go `error` values become `Option Err` (`none` = nil). `fmt.Errorf("msg: %w", e)`
  becomes `Err.wrap "msg" e` for a non-nil `e` and `Err.wrapNil "msg"` for a nil
  one (as `%w` permits), and sentinel errors from `errors.New` become `Err.base`.
* `time.Duration` values and `float64` arithmetic are modelled over `ℚ`
  (exact real arithmetic; float rounding is abstracted away).
* The global PRNG consumed by `rand.Float64()` is made explicit as a stream of
  rationals in `[0,1)`: an impure call pops the head of the stream.
* A context's cancellation is made explicit as a function telling, for each
  backoff wait, whether `ctx.Done()` fired during that wait (and with which
  cause); the operation under retry is a function from the invocation index to
  its result.
-/

/-- Go error values: `base s` is a sentinel created by `errors.New(s)`;
`wrap msg e` is `fmt.Errorf(msg + ": %w", e)` around a non-nil `e`, and
`wrapNil msg` the same around a nil error. -/
inductive Err : Type where
  | base : String → Err
  | wrapNil : String → Err
  | wrap : String → Err → Err
deriving BEq, DecidableEq, Repr

/-- Go `errors.Is(err, target)`: true if `err` equals `target` or some error in
its unwrap chain does. -/
def errIs : Err → Err → Bool
  | e@(Err.base _), t => e == t
  | e@(Err.wrapNil _), t => e == t
  | e@(Err.wrap _ inner), t => e == t || errIs inner t

/-- Struct `RetryPolicy` from the reliability package. Durations (`InitialInterval`,
`MaxInterval`, in nanoseconds) and the `float64` `Multiplier` are modelled
over `ℚ`. -/
structure RetryPolicy : Type where
  MaxRetries : Int
  InitialInterval : ℚ
  MaxInterval : ℚ
  Multiplier : ℚ
  RandomizeJitter : Bool
  RetryableErrors : List Err
deriving DecidableEq, Repr

/-- Function `DefaultRetryPolicy()`: 3 retries, 1s initial, 30s cap, ×2 multiplier,
jitter on (durations in nanoseconds). -/
def defaultRetryPolicy : RetryPolicy :=
  { MaxRetries := 3
    InitialInterval := 1000000000
    MaxInterval := 30000000000
    Multiplier := 2
    RandomizeJitter := true
    RetryableErrors := [] }

/-- Method `RetryPolicy.IsRetryable`: nil is not retryable; with no configured
retryable set, every non-nil error is retryable; otherwise only errors
matching (via `errors.Is`) a configured one are. -/
def RetryPolicy.isRetryable (p : RetryPolicy) (err : Option Err) : Bool :=
  match err with
  | none => false
  | some e =>
      if p.RetryableErrors.isEmpty then true
      else p.RetryableErrors.any fun target => errIs e target

/-- Method `RetryPolicy.CalculateBackoff`. The PRNG behind `rand.Float64()` is the
explicit stream `rng`; a call consumes its head (a rational in `[0,1)`).
Returns the computed duration together with the remaining stream. -/
def RetryPolicy.calculateBackoff (p : RetryPolicy) (attempt : Int) (rng : List ℚ) :
    ℚ × List ℚ :=
  if attempt ≤ 0 then (0, rng)
  else
    let backoff := p.InitialInterval * p.Multiplier ^ (attempt - 1).toNat
    let backoff := if backoff > p.MaxInterval then p.MaxInterval else backoff
    if p.RandomizeJitter then
      let jitter := rng.headD 0 * (3 / 10) * backoff
      (backoff + jitter, rng.tail)
    else
      (backoff, rng)

/-- The loop body of `WithRetry` (lines 83–112 of the retry file). `gap` is
`policy.MaxRetries - attempt` (so `gap = 0` means the current attempt is the
last one), `fn i` is the result of the i-th invocation of the operation,
`cancel i` tells whether the context was cancelled (and with which cause)
during the backoff wait that follows attempt `i`, and `count` accumulates the
number of invocations made so far. Returns the final error (`none` = success)
and the total invocation count. -/
def withRetryLoop (p : RetryPolicy) (fn : ℕ → Option Err) (cancel : ℕ → Option Err) :
    ℕ → ℕ → ℕ → Option Err × ℕ
  | 0, attempt, count =>
    match fn attempt with
    | none => (none, count + 1)
    | some e =>
        if p.isRetryable (some e) then
          (some (Err.wrap "max retries exceeded" e), count + 1)
        else
          (some e, count + 1)
  | gap' + 1, attempt, count =>
    match fn attempt with
    | none => (none, count + 1)
    | some e =>
        if p.isRetryable (some e) then
          match cancel attempt with
          | some cause => (some (Err.wrap "retry cancelled" cause), count + 1)
          | none => withRetryLoop p fn cancel gap' (attempt + 1) (count + 1)
        else
          (some e, count + 1)

/-- Function `WithRetry` for a non-nil policy: if `MaxRetries < 0` the `for` loop body
never runs and the function returns a "max retries exceeded" error wrapping
the nil `lastErr`; otherwise run the loop from attempt 0. -/
def withRetryGo (p : RetryPolicy) (fn : ℕ → Option Err) (cancel : ℕ → Option Err) :
    Option Err × ℕ :=
  if p.MaxRetries < 0 then (some (Err.wrapNil "max retries exceeded"), 0)
  else withRetryLoop p fn cancel p.MaxRetries.toNat 0 0

/-- Function `WithRetry(ctx, policy, fn)`: a nil policy is replaced by
`DefaultRetryPolicy()`. -/
def withRetry (policy : Option RetryPolicy) (fn : ℕ → Option Err)
    (cancel : ℕ → Option Err) : Option Err × ℕ :=
  withRetryGo (policy.getD defaultRetryPolicy) fn cancel

/-- The loop body of `WithRetryTyped` (same control flow as `withRetryLoop`;
the operation additionally produces a value of type `α`, and every error path
returns the zero value `default`). -/
def withRetryTypedLoop {α : Type} [Inhabited α] (p : RetryPolicy)
    (fn : ℕ → α × Option Err) (cancel : ℕ → Option Err) :
    ℕ → ℕ → ℕ → (α × Option Err) × ℕ
  | 0, attempt, count =>
    match fn attempt with
    | (v, none) => ((v, none), count + 1)
    | (_, some e) =>
        if p.isRetryable (some e) then
          ((default, some (Err.wrap "max retries exceeded" e)), count + 1)
        else
          ((default, some e), count + 1)
  | gap' + 1, attempt, count =>
    match fn attempt with
    | (v, none) => ((v, none), count + 1)
    | (_, some e) =>
        if p.isRetryable (some e) then
          match cancel attempt with
          | some cause => ((default, some (Err.wrap "retry cancelled" cause)), count + 1)
          | none => withRetryTypedLoop p fn cancel gap' (attempt + 1) (count + 1)
        else
          ((default, some e), count + 1)

/-- Function `WithRetryTyped(ctx, policy, fn)` for a non-nil policy. -/
def withRetryTypedGo {α : Type} [Inhabited α] (p : RetryPolicy)
    (fn : ℕ → α × Option Err) (cancel : ℕ → Option Err) : (α × Option Err) × ℕ :=
  if p.MaxRetries < 0 then ((default, some (Err.wrapNil "max retries exceeded")), 0)
  else withRetryTypedLoop p fn cancel p.MaxRetries.toNat 0 0

/-- The shape of the provider composition built by `Factory.Create`: the bare
provider returned by the registered constructor, possibly wrapped by the
`RetryWrapper`, `RateLimitWrapper` and `CircuitBreakerWrapper` decorators from
`pkg/client/factory.go`. -/
inductive WrappedProvider : Type where
  | bare : String → WrappedProvider
  | retryWrap : WrappedProvider → WrappedProvider
  | rateLimitWrap : WrappedProvider → WrappedProvider
  | circuitWrap : WrappedProvider → WrappedProvider
deriving DecidableEq, Repr

/-- The wrapping section of `Factory.Create` (factory.go lines 66–92): starting
from the constructed provider, wrap with `RetryWrapper` when a retry policy is
set, then with `RateLimitWrapper` when a rate-limit config is set, then with
`CircuitBreakerWrapper` when a circuit-breaker config is set. Each `has…` flag
is the nil-ness test of the corresponding `ProviderConfig` field. -/
def factoryCreateWrap (hasRetryPolicy hasRateLimitConfig hasCircuitBreaker : Bool)
    (provider : WrappedProvider) : WrappedProvider :=
  let wrapped := provider
  let wrapped := if hasRetryPolicy then WrappedProvider.retryWrap wrapped else wrapped
  let wrapped := if hasRateLimitConfig then WrappedProvider.rateLimitWrap wrapped else wrapped
  let wrapped := if hasCircuitBreaker then WrappedProvider.circuitWrap wrapped else wrapped
  wrapped

/-- Struct `RateLimitConfig` from the reliability package (rate in requests/second as
a float, modelled over `ℚ`; `WaitTimeout` in nanoseconds). -/
structure RateLimitConfig : Type where
  RequestsPerSecond : ℚ
  Burst : Int
  WaitTimeout : ℚ
deriving DecidableEq, Repr

/-- Struct `MultiTierRateLimiter`: a map (modelled as an association list, newest
binding first) from tier name to that tier's rate limiter, here represented by
its configuration. -/
structure MultiTierRateLimiter : Type where
  limiters : List (String × RateLimitConfig)
deriving DecidableEq, Repr

/-- Function `NewMultiTierRateLimiter()`: starts with an empty map. -/
def newMultiTierRateLimiter : MultiTierRateLimiter := ⟨[]⟩

/-- Method `MultiTierRateLimiter.AddTier`: map assignment `m.limiters[tier] = NewRateLimiter(config)`. -/
def MultiTierRateLimiter.addTier (m : MultiTierRateLimiter) (tier : String)
    (config : RateLimitConfig) : MultiTierRateLimiter :=
  ⟨(tier, config) :: m.limiters.filter fun kv => kv.1 ≠ tier⟩

/-- Method `MultiTierRateLimiter.Wait`: looks the tier up; an unknown tier yields the
error `"tier <tier> not found"` and the map is left untouched. For a known
tier the call delegates to that tier's limiter, which never modifies the map;
the delegated wait itself (a real-time token wait) is abstracted as success.
Returns the error (`none` = admitted) and the resulting map state. -/
def MultiTierRateLimiter.wait (m : MultiTierRateLimiter) (tier : String) :
    Option Err × MultiTierRateLimiter :=
  match m.limiters.lookup tier with
  | some _ => (none, m)
  | none => (some (Err.base ("tier " ++ tier ++ " not found")), m)

/-- The `golang.org/x/time/rate` limiter held per user by the per-user
middleware. Modelled from the spec: a token bucket of capacity `burst`
observed at a single instant (no refill elapses between the modelled calls);
a fresh limiter starts with a full bucket. -/
structure TokenLimiter : Type where
  rps : ℚ
  burst : Int
  tokens : Int
deriving DecidableEq, Repr

/-- Constructor `rate.NewLimiter(rate.Limit(rps), burst)`: fresh limiter with a full bucket. -/
def newTokenLimiter (rps : ℚ) (burst : Int) : TokenLimiter :=
  ⟨rps, burst, burst⟩

/-- Method `limiter.Allow()`: consume one token if available. -/
def TokenLimiter.allow (l : TokenLimiter) : Bool × TokenLimiter :=
  if 1 ≤ l.tokens then (true, { l with tokens := l.tokens - 1 }) else (false, l)

/-- Outcome of one request through the per-user middleware: pass the request on
(`c.Next()`) or reject it with HTTP 429. -/
inductive HandlerResult : Type where
  | next : HandlerResult
  | tooManyRequests : String → HandlerResult
deriving DecidableEq, Repr

/-- Write an updated limiter back under its key (the Go map holds a pointer to
the limiter, so `limiter.Allow()` mutates the entry in place). -/
def updateLimiter (st : List (String × TokenLimiter)) (key : String)
    (l : TokenLimiter) : List (String × TokenLimiter) :=
  st.map fun kv => if kv.1 = key then (key, l) else kv

/-- One request through the closure returned by `PerUserRateLimitMiddleware`
(part_000 lines 28–50): resolve the user's limiter from the captured map,
creating and storing a fresh one on first use, then consult `Allow()`. The
user identifier is the already-resolved key (the `user_id` local, or the
client IP fallback). Returns the handler outcome and the map afterwards. -/
def perUserHandle (requestsPerSecond : ℚ) (burst : Int)
    (st : List (String × TokenLimiter)) (userID : String) :
    HandlerResult × List (String × TokenLimiter) :=
  let resolved :=
    match st.lookup userID with
    | some l => (l, st)
    | none =>
        let l := newTokenLimiter requestsPerSecond burst
        (l, (userID, l) :: st)
  let allowed := resolved.1.allow
  let st' := updateLimiter resolved.2 userID allowed.2
  if allowed.1 then (HandlerResult.next, st')
  else (HandlerResult.tooManyRequests userID, st')

/-- The sentinel `gobreaker.ErrOpenState`. -/
def errOpenState : Err := Err.base "circuit breaker is open"

/-- The sentinel `gobreaker.ErrTooManyRequests`. -/
def errTooManyRequests : Err := Err.base "too many requests"

/-- Struct `gobreaker.Counts`. -/
structure GoCounts : Type where
  requests : ℕ
  totalSuccesses : ℕ
  totalFailures : ℕ
  consecutiveSuccesses : ℕ
  consecutiveFailures : ℕ
deriving DecidableEq, Repr

/-- Fresh (reset) counts. -/
def GoCounts.zero : GoCounts := ⟨0, 0, 0, 0, 0⟩

/-- Breaker state enum `{Closed, Open, HalfOpen}`. -/
inductive BreakerState : Type where
  | closed : BreakerState
  | opened : BreakerState
  | halfOpen : BreakerState
deriving DecidableEq, Repr

/-- The `CircuitBreaker` built by `NewCircuitBreaker(name, config)`:
`failureThreshold` enters through the `ReadyToTrip` closure
(`counts.ConsecutiveFailures >= config.FailureThreshold`), `maxRequests`
caps half-open probes. Modelled from the spec: the underlying `gobreaker`
state machine, observed at a single instant (the open-timeout and
statistical-window clock transitions do not fire between the modelled calls). -/
structure CircuitBreaker : Type where
  name : String
  state : BreakerState
  counts : GoCounts
  maxRequests : ℕ
  failureThreshold : ℕ
deriving DecidableEq, Repr

/-- Modelled from the spec: recording a failed call. Counts gain the failure;
in Closed state the breaker trips to Open (with counts reset) once
`consecutiveFailures ≥ failureThreshold`; in HalfOpen any failure returns the
breaker to Open. -/
def CircuitBreaker.onFailure (cb : CircuitBreaker) : CircuitBreaker :=
  let counts :=
    { cb.counts with
      totalFailures := cb.counts.totalFailures + 1
      consecutiveFailures := cb.counts.consecutiveFailures + 1
      consecutiveSuccesses := 0 }
  match cb.state with
  | BreakerState.closed =>
      if cb.failureThreshold ≤ counts.consecutiveFailures then
        { cb with state := BreakerState.opened, counts := GoCounts.zero }
      else
        { cb with counts := counts }
  | BreakerState.halfOpen => { cb with state := BreakerState.opened, counts := GoCounts.zero }
  | BreakerState.opened => { cb with counts := counts }

/-- Modelled from the spec: recording a successful call; in HalfOpen the
breaker closes once enough consecutive probes succeed. -/
def CircuitBreaker.onSuccess (cb : CircuitBreaker) : CircuitBreaker :=
  let counts :=
    { cb.counts with
      totalSuccesses := cb.counts.totalSuccesses + 1
      consecutiveSuccesses := cb.counts.consecutiveSuccesses + 1
      consecutiveFailures := 0 }
  match cb.state with
  | BreakerState.halfOpen =>
      if cb.maxRequests ≤ counts.consecutiveSuccesses then
        { cb with state := BreakerState.closed, counts := GoCounts.zero }
      else
        { cb with counts := counts }
  | _ => { cb with counts := counts }

/-- Modelled from the spec: `gobreaker`'s `Execute`, which backs
`CircuitBreaker.Execute`. While Open every request is rejected with
`ErrOpenState` and the operation is not invoked; in HalfOpen requests beyond
`maxRequests` are rejected with `ErrTooManyRequests`; otherwise the operation
(`fn`, a pure pair of result value and error) runs, its outcome is recorded,
and its result and error are returned unchanged. -/
def CircuitBreaker.execute (cb : CircuitBreaker) (fn : Int × Option Err) :
    (Int × Option Err) × CircuitBreaker :=
  match cb.state with
  | BreakerState.opened => ((0, some errOpenState), cb)
  | BreakerState.halfOpen =>
      if cb.maxRequests ≤ cb.counts.requests then
        ((0, some errTooManyRequests), cb)
      else
        let cb := { cb with counts := { cb.counts with requests := cb.counts.requests + 1 } }
        match fn with
        | (v, none) => ((v, none), cb.onSuccess)
        | (v, some e) => ((v, some e), cb.onFailure)
  | BreakerState.closed =>
      let cb := { cb with counts := { cb.counts with requests := cb.counts.requests + 1 } }
      match fn with
      | (v, none) => ((v, none), cb.onSuccess)
      | (v, some e) => ((v, some e), cb.onFailure)

/-- Method `CircuitBreaker.ExecuteWithFallback` (reliability source, circuit-breaker
file lines 330–344): run the operation through the breaker; if the resulting
error is (via `errors.Is`) `ErrOpenState` or `ErrTooManyRequests` and a
fallback is supplied (non-nil), return the fallback's result instead;
otherwise return the breaker's result and error unchanged. -/
def CircuitBreaker.executeWithFallback (cb : CircuitBreaker) (fn : Int × Option Err)
    (fallback : Option (Int × Option Err)) : (Int × Option Err) × CircuitBreaker :=
  let ran := cb.execute fn
  match ran.1.2 with
  | some e =>
      if errIs e errOpenState || errIs e errTooManyRequests then
        match fallback with
        | some fb => (fb, ran.2)
        | none => ran
      else ran
  | none => ran

/-- Sentinel `ErrTimeout = errors.New("operation timeout")`. -/
def errTimeout : Err := Err.base "operation timeout"

/-- Sentinel `ErrServiceUnavailable = errors.New("service unavailable")`. -/
def errServiceUnavailable : Err := Err.base "service unavailable"

/-- Sentinel `ErrRateLimited = errors.New("rate limited")`. -/
def errRateLimited : Err := Err.base "rate limited"

/-- Sentinel `ErrNetworkError = errors.New("network error")`. -/
def errNetworkError : Err := Err.base "network error"

/-- Function `StripeRetryPolicy()` from the source (durations in nanoseconds). -/
def stripeRetryPolicy : RetryPolicy :=
  { MaxRetries := 3
    InitialInterval := 500000000
    MaxInterval := 10000000000
    Multiplier := 2
    RandomizeJitter := true
    RetryableErrors := [errTimeout, errServiceUnavailable, errRateLimited] }

/-- The retry policy of the spec's §8 scenario: `maxRetries = 2`,
10ms initial interval, ×2 multiplier, jitter off. -/
def scenarioRetryPolicy : RetryPolicy :=
  { MaxRetries := 2
    InitialInterval := 10000000
    MaxInterval := 30000000000
    Multiplier := 2
    RandomizeJitter := false
    RetryableErrors := [] }

/-- A policy with a negative `MaxRetries`; nothing in `WithRetry` rejects it. -/
def negativeRetryPolicy : RetryPolicy :=
  { MaxRetries := -1
    InitialInterval := 1000000000
    MaxInterval := 1000000000
    Multiplier := 2
    RandomizeJitter := false
    RetryableErrors := [errTimeout] }

/-- A small jittered policy used to exhibit the PRNG-dependence of
`CalculateBackoff` (100ns initial, 1000ns cap, ×2, jitter on). -/
def jitterRetryPolicy : RetryPolicy :=
  { MaxRetries := 3
    InitialInterval := 100
    MaxInterval := 1000
    Multiplier := 2
    RandomizeJitter := true
    RetryableErrors := [] }

/-- A closed breaker as built by `NewCircuitBreaker("stripe", nil)` with the
default config (`MaxRequests = 3`, `FailureThreshold = 5`). -/
def freshBreaker : CircuitBreaker :=
  { name := "stripe"
    state := BreakerState.closed
    counts := GoCounts.zero
    maxRequests := 3
    failureThreshold := 5 }

lemma ite_gt_eq_min (x y : ℚ) : (if x > y then y else x) = min x y := by
  split_ifs with h
  · exact (min_eq_right h.le).symm
  · exact (min_eq_left (not_lt.mp h)).symm

lemma calculateBackoff_fst_nojitter (p : RetryPolicy) (a : Int) (rng : List ℚ)
    (ha : 1 ≤ a) (hj : p.RandomizeJitter = false) :
    (p.calculateBackoff a rng).1 =
      min (p.InitialInterval * p.Multiplier ^ (a - 1).toNat) p.MaxInterval := by
  unfold RetryPolicy.calculateBackoff
  rw [if_neg (by omega)]
  simp [hj, ite_gt_eq_min]

lemma calculateBackoff_snd_nojitter (p : RetryPolicy) (a : Int) (rng : List ℚ)
    (hj : p.RandomizeJitter = false) :
    (p.calculateBackoff a rng).2 = rng := by
  unfold RetryPolicy.calculateBackoff
  split_ifs with h1 h2 <;> simp_all

lemma calculateBackoff_fst_jitter (p : RetryPolicy) (a : Int) (rng : List ℚ)
    (ha : 1 ≤ a) (hj : p.RandomizeJitter = true) :
    (p.calculateBackoff a rng).1 =
      min (p.InitialInterval * p.Multiplier ^ (a - 1).toNat) p.MaxInterval +
        rng.headD 0 * (3 / 10) *
          min (p.InitialInterval * p.Multiplier ^ (a - 1).toNat) p.MaxInterval := by
  unfold RetryPolicy.calculateBackoff
  rw [if_neg (by omega)]
  simp [hj, ite_gt_eq_min]

lemma withRetryLoop_allFail (p : RetryPolicy) (fs : ℕ → Err)
    (hr : ∀ i, p.isRetryable (some (fs i)) = true) :
    ∀ gap attempt count,
      withRetryLoop p (fun i => some (fs i)) (fun _ => none) gap attempt count =
        (some (Err.wrap "max retries exceeded" (fs (attempt + gap))), count + (gap + 1)) := by
  intro gap
  induction gap with
  | zero =>
      intro attempt count
      unfold withRetryLoop
      simp [hr]
  | succ g ih =>
      intro attempt count
      unfold withRetryLoop
      simp only [hr, if_true]
      rw [ih]
      have h1 : attempt + 1 + g = attempt + (g + 1) := by omega
      have h2 : count + 1 + (g + 1) = count + (g + 1 + 1) := by omega
      rw [h1, h2]

lemma withRetryTypedLoop_allFail {α : Type} [Inhabited α] (p : RetryPolicy)
    (fs : ℕ → Err) (vs : ℕ → α)
    (hr : ∀ i, p.isRetryable (some (fs i)) = true) :
    ∀ gap attempt count,
      withRetryTypedLoop p (fun i => (vs i, some (fs i))) (fun _ => none) gap attempt count =
        ((default, some (Err.wrap "max retries exceeded" (fs (attempt + gap)))),
          count + (gap + 1)) := by
  intro gap
  induction gap with
  | zero =>
      intro attempt count
      unfold withRetryTypedLoop
      simp [hr]
  | succ g ih =>
      intro attempt count
      unfold withRetryTypedLoop
      simp only [hr, if_true]
      rw [ih]
      have h1 : attempt + 1 + g = attempt + (g + 1) := by omega
      have h2 : count + 1 + (g + 1) = count + (g + 1 + 1) := by omega
      rw [h1, h2]

lemma withRetryLoop_cancelAt (p : RetryPolicy) (fs : ℕ → Err) (cancel : ℕ → Option Err)
    (ce : Err) (hr : ∀ i, p.isRetryable (some (fs i)) = true) :
    ∀ k gap attempt count, (∀ i, i < k → cancel (attempt + i) = none) →
      cancel (attempt + k) = some ce → k < gap →
      withRetryLoop p (fun i => some (fs i)) cancel gap attempt count =
        (some (Err.wrap "retry cancelled" ce), count + (k + 1)) := by
  intro k
  induction k with
  | zero =>
      intro gap attempt count _ hc hlt
      obtain ⟨g, rfl⟩ : ∃ g, gap = g + 1 := ⟨gap - 1, by omega⟩
      unfold withRetryLoop
      simp only [hr, if_true]
      rw [show attempt + 0 = attempt from rfl] at hc
      rw [hc]
  | succ k ih =>
      intro gap attempt count hnone hc hlt
      obtain ⟨g, rfl⟩ : ∃ g, gap = g + 1 := ⟨gap - 1, by omega⟩
      have h0 : cancel attempt = none := by
        have := hnone 0 (by omega)
        simpa using this
      unfold withRetryLoop
      simp only [hr, if_true, h0]
      rw [ih g (attempt + 1) (count + 1)
        (fun i hi => by
          have := hnone (i + 1) (by omega)
          rw [show attempt + (i + 1) = attempt + 1 + i from by omega] at this
          exact this)
        (by rw [show attempt + 1 + k = attempt + (k + 1) from by omega]; exact hc)
        (by omega)]
      have h2 : count + 1 + (k + 1) = count + (k + 1 + 1) := by omega
      rw [h2]

/-- C1 (counterexample): with a retry policy, rate-limit config and
circuit-breaker config all set, the composition built by `Factory.Create` is
NOT retry-outermost / circuit-breaker-innermost as the claim states. -/
theorem factory_order_counterexample :
    factoryCreateWrap true true true (WrappedProvider.bare "stripe") ≠
      WrappedProvider.retryWrap (WrappedProvider.rateLimitWrap
        (WrappedProvider.circuitWrap (WrappedProvider.bare "stripe"))) := by
  decide

/-- C1 (amended): with all three reliability configs set, `Factory.Create`
produces the fixed order circuit breaker outermost, rate limiter in the
middle, and the retry layer innermost, wrapping the real provider call. -/
theorem factory_order_breaker_outermost (provider : WrappedProvider) :
    factoryCreateWrap true true true provider =
      WrappedProvider.circuitWrap (WrappedProvider.rateLimitWrap
        (WrappedProvider.retryWrap provider)) := rfl

/-- C10: calling `WithRetry` with a non-nil policy whose `MaxRetries` is
negative never invokes the operation (zero attempts) and returns a
"max retries exceeded" error wrapping a nil error; the invalid policy is not
rejected. -/
theorem negative_max_retries_zero_invocations (p : RetryPolicy) (fn : ℕ → Option Err)
    (cancel : ℕ → Option Err) (h : p.MaxRetries < 0) :
    withRetry (some p) fn cancel = (some (Err.wrapNil "max retries exceeded"), 0) := by
  unfold withRetry withRetryGo
  simp [h]

/-- Witness for C10 at the concrete policy with `MaxRetries = -1`. -/
theorem negative_max_retries_zero_invocations_witness :
    negativeRetryPolicy.MaxRetries < 0 ∧
    withRetry (some negativeRetryPolicy) (fun _ => some errTimeout) (fun _ => none) =
      (some (Err.wrapNil "max retries exceeded"), 0) :=
  ⟨by decide, negative_max_retries_zero_invocations negativeRetryPolicy _ _ (by decide)⟩

/-- C4 (counterexample): for a policy with `MaxRetries = -1` that classifies
`ErrNetworkError` as non-retryable, `WithRetry` performs zero invocations, not
the "exactly once regardless of MaxRetries" the claim states. -/
theorem nonretryable_counterexample :
    negativeRetryPolicy.isRetryable (some errNetworkError) = false ∧
    (withRetry (some negativeRetryPolicy) (fun _ => some errNetworkError) (fun _ => none)).2 = 0 ∧
    (withRetry (some negativeRetryPolicy) (fun _ => some errNetworkError) (fun _ => none)).2 ≠ 1 := by
  refine ⟨by decide, by decide, by decide⟩

/-- C4 (amended): for a policy with `MaxRetries ≥ 0` (the spec's data-model
invariant), an error classified non-retryable causes exactly one invocation
and is returned unchanged, not wrapped. -/
theorem nonretryable_single_invocation (p : RetryPolicy) (fn : ℕ → Option Err)
    (cancel : ℕ → Option Err) (e : Err)
    (hmr : 0 ≤ p.MaxRetries) (h0 : fn 0 = some e)
    (hnr : p.isRetryable (some e) = false) :
    withRetry (some p) fn cancel = (some e, 1) := by
  unfold withRetry withRetryGo
  simp only [Option.getD_some]
  rw [if_neg (by omega)]
  cases hg : p.MaxRetries.toNat with
  | zero => unfold withRetryLoop; rw [h0]; simp [hnr]
  | succ g => unfold withRetryLoop; rw [h0]; simp [hnr]

/-- Witness for C4 (amended) at the Stripe policy and a non-retryable error. -/
theorem nonretryable_single_invocation_witness :
    0 ≤ stripeRetryPolicy.MaxRetries ∧
    stripeRetryPolicy.isRetryable (some errNetworkError) = false ∧
    withRetry (some stripeRetryPolicy) (fun _ => some errNetworkError) (fun _ => none) =
      (some errNetworkError, 1) :=
  ⟨by decide, by decide,
    nonretryable_single_invocation stripeRetryPolicy _ _ errNetworkError
      (by decide) rfl (by decide)⟩

/-- C2: with `MaxRetries = n` and an operation that always returns a retryable
error, `WithRetry` and `WithRetryTyped` invoke the operation exactly `n + 1`
times and return a "max retries exceeded" error wrapping the last failure. -/
theorem retry_exhausts_all_attempts {α : Type} [Inhabited α] (p : RetryPolicy) (n : ℕ)
    (fs : ℕ → Err) (vs : ℕ → α)
    (hmr : p.MaxRetries = (n : Int))
    (hr : ∀ i, p.isRetryable (some (fs i)) = true) :
    withRetry (some p) (fun i => some (fs i)) (fun _ => none) =
      (some (Err.wrap "max retries exceeded" (fs n)), n + 1) ∧
    withRetryTypedGo p (fun i => (vs i, some (fs i))) (fun _ => none) =
      ((default, some (Err.wrap "max retries exceeded" (fs n))), n + 1) := by
  constructor
  · unfold withRetry withRetryGo
    simp only [Option.getD_some]
    rw [hmr, if_neg (by omega), show ((n : Int)).toNat = n from by omega]
    rw [withRetryLoop_allFail p fs hr n 0 0]
    simp
  · unfold withRetryTypedGo
    rw [hmr, if_neg (by omega), show ((n : Int)).toNat = n from by omega]
    rw [withRetryTypedLoop_allFail p fs vs hr n 0 0]
    simp

/-- Witness for C2 at the spec's §8 scenario policy (`MaxRetries = 2`) and an
always-timeout operation: 3 invocations, aggregate error wraps the timeout. -/
theorem retry_exhausts_all_attempts_witness :
    scenarioRetryPolicy.MaxRetries = ((2 : ℕ) : Int) ∧
    (∀ _i : ℕ, scenarioRetryPolicy.isRetryable (some errTimeout) = true) ∧
    withRetry (some scenarioRetryPolicy) (fun _ => some errTimeout) (fun _ => none) =
      (some (Err.wrap "max retries exceeded" errTimeout), 2 + 1) ∧
    withRetryTypedGo (α := Int) scenarioRetryPolicy (fun _ => ((0 : Int), some errTimeout))
        (fun _ => none) =
      ((default, some (Err.wrap "max retries exceeded" errTimeout)), 2 + 1) := by
  have h := retry_exhausts_all_attempts (α := Int) scenarioRetryPolicy 2 (fun _ => errTimeout)
    (fun _ => (0 : Int)) rfl (fun _ => rfl)
  exact ⟨rfl, fun _ => rfl, h.1, h.2⟩

/-- C5: if the context is cancelled during the backoff wait that follows
attempt `k` (the first cancellation to fire, with `k < MaxRetries` so a wait
happens), `WithRetry` returns a "retry cancelled" error wrapping the
cancellation cause and makes no further invocation: exactly `k + 1` calls. -/
theorem retry_cancelled_during_wait (p : RetryPolicy) (fs : ℕ → Err)
    (cancel : ℕ → Option Err) (ce : Err) (k : ℕ)
    (hr : ∀ i, p.isRetryable (some (fs i)) = true)
    (hnone : ∀ i, i < k → cancel i = none)
    (hk : cancel k = some ce)
    (hlt : (k : Int) < p.MaxRetries) :
    withRetry (some p) (fun i => some (fs i)) cancel =
      (some (Err.wrap "retry cancelled" ce), k + 1) := by
  unfold withRetry withRetryGo
  simp only [Option.getD_some]
  rw [if_neg (by omega)]
  have h := withRetryLoop_cancelAt p fs cancel ce hr k p.MaxRetries.toNat 0 0
    (fun i hi => by simpa using hnone i hi)
    (by simpa using hk)
    (by omega)
  simpa using h

/-- Witness for C5: Stripe policy, always-timeout operation, cancellation
firing during the wait after the second invocation (`k = 1`). -/
theorem retry_cancelled_during_wait_witness :
    (∀ _i : ℕ, stripeRetryPolicy.isRetryable (some errTimeout) = true) ∧
    ((1 : ℕ) : Int) < stripeRetryPolicy.MaxRetries ∧
    withRetry (some stripeRetryPolicy) (fun _ => some errTimeout)
        (fun i => if i = 1 then some (Err.base "context canceled") else none) =
      (some (Err.wrap "retry cancelled" (Err.base "context canceled")), 1 + 1) := by
  refine ⟨fun _ => rfl, by decide, ?_⟩
  exact retry_cancelled_during_wait stripeRetryPolicy (fun _ => errTimeout) _
    (Err.base "context canceled") 1
    (fun _ => rfl)
    (fun i hi => by simp [show i = 0 from by omega])
    (by simp)
    (by decide)

/-- C3: for `attempt ≤ 0` the backoff is zero; for `attempt ≥ 1` with jitter
disabled the backoff is exactly `min(InitialInterval · Multiplier^(attempt-1),
MaxInterval)`; with jitter enabled a random amount in `[0, 0.3 · delay]` is
added to that capped delay, so the result never exceeds `MaxInterval · 1.3`.
(The PRNG draw is the head of `rng`, a rational in `[0,1)`; its uniformity is
a distributional fact outside this model.) -/
theorem backoff_formula_and_cap (p : RetryPolicy) (a : Int) (rng : List ℚ)
    (hinit : 0 ≤ p.InitialInterval) (hmult : 0 ≤ p.Multiplier)
    (hmax : 0 ≤ p.MaxInterval) (hj0 : 0 ≤ rng.headD 0) (hj1 : rng.headD 0 < 1) :
    (a ≤ 0 → (p.calculateBackoff a rng).1 = 0) ∧
    (1 ≤ a → p.RandomizeJitter = false →
      (p.calculateBackoff a rng).1 =
        min (p.InitialInterval * p.Multiplier ^ (a - 1).toNat) p.MaxInterval) ∧
    (1 ≤ a → p.RandomizeJitter = true →
      0 ≤ (p.calculateBackoff a rng).1 -
          min (p.InitialInterval * p.Multiplier ^ (a - 1).toNat) p.MaxInterval ∧
      (p.calculateBackoff a rng).1 -
          min (p.InitialInterval * p.Multiplier ^ (a - 1).toNat) p.MaxInterval ≤
        (3 / 10) * min (p.InitialInterval * p.Multiplier ^ (a - 1).toNat) p.MaxInterval ∧
      (p.calculateBackoff a rng).1 ≤ p.MaxInterval * (13 / 10)) := by
  refine ⟨?_, ?_, ?_⟩
  · intro ha
    unfold RetryPolicy.calculateBackoff
    rw [if_pos ha]
  · intro ha hj
    exact calculateBackoff_fst_nojitter p a rng ha hj
  · intro ha hj
    rw [calculateBackoff_fst_jitter p a rng ha hj]
    set d := min (p.InitialInterval * p.Multiplier ^ (a - 1).toNat) p.MaxInterval with hd
    set j := rng.headD 0 with hjdef
    have hd0 : 0 ≤ d := le_min (mul_nonneg hinit (pow_nonneg hmult _)) hmax
    have hdm : d ≤ p.MaxInterval := min_le_right _ _
    have hjd : j * (3 / 10) * d ≤ (3 / 10) * d := by nlinarith
    have hjd0 : 0 ≤ j * (3 / 10) * d := by positivity
    refine ⟨by linarith, by linarith, by nlinarith⟩

/-- Witness for C3 at the concrete jittered policy, `attempt = 2`, PRNG head
`1/2`. -/
theorem backoff_formula_and_cap_witness :
    0 ≤ jitterRetryPolicy.InitialInterval ∧ 0 ≤ jitterRetryPolicy.Multiplier ∧
    0 ≤ jitterRetryPolicy.MaxInterval ∧
    0 ≤ ([(1 : ℚ) / 2].headD 0) ∧ ([(1 : ℚ) / 2].headD 0) < 1 ∧
    (1 ≤ (2 : Int) → jitterRetryPolicy.RandomizeJitter = true →
      0 ≤ (jitterRetryPolicy.calculateBackoff 2 [(1 : ℚ) / 2]).1 -
          min (jitterRetryPolicy.InitialInterval *
            jitterRetryPolicy.Multiplier ^ ((2 : Int) - 1).toNat)
            jitterRetryPolicy.MaxInterval ∧
      (jitterRetryPolicy.calculateBackoff 2 [(1 : ℚ) / 2]).1 -
          min (jitterRetryPolicy.InitialInterval *
            jitterRetryPolicy.Multiplier ^ ((2 : Int) - 1).toNat)
            jitterRetryPolicy.MaxInterval ≤
        (3 / 10) * min (jitterRetryPolicy.InitialInterval *
            jitterRetryPolicy.Multiplier ^ ((2 : Int) - 1).toNat)
            jitterRetryPolicy.MaxInterval ∧
      (jitterRetryPolicy.calculateBackoff 2 [(1 : ℚ) / 2]).1 ≤
        jitterRetryPolicy.MaxInterval * (13 / 10)) := by
  refine ⟨?_, ?_, ?_, ?_, ?_, ?_⟩
  · norm_num [jitterRetryPolicy]
  · norm_num [jitterRetryPolicy]
  · norm_num [jitterRetryPolicy]
  · norm_num
  · norm_num
  · exact (backoff_formula_and_cap jitterRetryPolicy 2 [(1 : ℚ) / 2]
      (by norm_num [jitterRetryPolicy]) (by norm_num [jitterRetryPolicy])
      (by norm_num [jitterRetryPolicy]) (by norm_num) (by norm_num)).2.2

/-- C6 (counterexample): `CalculateBackoff` is not a pure function of its
arguments when jitter is enabled — it consumes the shared global PRNG, so two
back-to-back calls with identical policy and attempt return different
durations (here on the PRNG stream `[0, 1/2]`: 100 then 115). -/
theorem backoff_impure_counterexample :
    (jitterRetryPolicy.calculateBackoff 1 [0, (1 : ℚ) / 2]).1 ≠
      (jitterRetryPolicy.calculateBackoff 1
        ((jitterRetryPolicy.calculateBackoff 1 [0, (1 : ℚ) / 2]).2)).1 := by
  norm_num [RetryPolicy.calculateBackoff, jitterRetryPolicy]

/-- C6 (amended): with jitter disabled `CalculateBackoff` is pure — its
duration is independent of the PRNG state and the PRNG is not consumed. (With
jitter enabled it reads the shared global PRNG, see the counterexample.) -/
theorem backoff_pure_without_jitter (p : RetryPolicy) (a : Int) (rng rng' : List ℚ)
    (h : p.RandomizeJitter = false) :
    (p.calculateBackoff a rng).1 = (p.calculateBackoff a rng').1 ∧
    (p.calculateBackoff a rng).2 = rng := by
  constructor
  · rcases le_or_lt a 0 with ha | ha
    · unfold RetryPolicy.calculateBackoff
      rw [if_pos ha, if_pos ha]
    · rw [calculateBackoff_fst_nojitter p a rng (by omega) h,
        calculateBackoff_fst_nojitter p a rng' (by omega) h]
  · exact calculateBackoff_snd_nojitter p a rng h

/-- Witness for C6 (amended) at the §8 scenario policy (jitter off). -/
theorem backoff_pure_without_jitter_witness :
    scenarioRetryPolicy.RandomizeJitter = false ∧
    ((scenarioRetryPolicy.calculateBackoff 1 []).1 =
      (scenarioRetryPolicy.calculateBackoff 1 [(1 : ℚ) / 2]).1 ∧
     (scenarioRetryPolicy.calculateBackoff 1 []).2 = []) :=
  ⟨rfl, backoff_pure_without_jitter scenarioRetryPolicy 1 [] [(1 : ℚ) / 2] rfl⟩

/-- C8: with jitter disabled, `Multiplier ≥ 1` and a nonnegative initial
interval, `CalculateBackoff` is monotonically non-decreasing in the attempt
number, and once the exponential term reaches `MaxInterval` the value stays
pinned at `MaxInterval`. -/
theorem backoff_monotone_until_cap (p : RetryPolicy) (a b : Int) (rng rng' : List ℚ)
    (ha : 1 ≤ a) (hab : a ≤ b) (hm : 1 ≤ p.Multiplier) (hi : 0 ≤ p.InitialInterval)
    (hj : p.RandomizeJitter = false) :
    (p.calculateBackoff a rng).1 ≤ (p.calculateBackoff b rng').1 ∧
    (p.MaxInterval ≤ p.InitialInterval * p.Multiplier ^ (a - 1).toNat →
      (p.calculateBackoff a rng).1 = p.MaxInterval ∧
      (p.calculateBackoff b rng').1 = p.MaxInterval) := by
  have hb : 1 ≤ b := le_trans ha hab
  rw [calculateBackoff_fst_nojitter p a rng ha hj,
    calculateBackoff_fst_nojitter p b rng' hb hj]
  have hpow : p.Multiplier ^ (a - 1).toNat ≤ p.Multiplier ^ (b - 1).toNat :=
    pow_le_pow_right₀ hm (by omega)
  have hx : p.InitialInterval * p.Multiplier ^ (a - 1).toNat ≤
      p.InitialInterval * p.Multiplier ^ (b - 1).toNat :=
    mul_le_mul_of_nonneg_left hpow hi
  refine ⟨min_le_min hx le_rfl, fun hcap => ⟨min_eq_right hcap, min_eq_right (le_trans hcap hx)⟩⟩

/-- Witness for C8 at the §8 scenario policy, attempts 1 ≤ 2. -/
theorem backoff_monotone_until_cap_witness :
    (1 : Int) ≤ 1 ∧ (1 : Int) ≤ 2 ∧ 1 ≤ scenarioRetryPolicy.Multiplier ∧
    0 ≤ scenarioRetryPolicy.InitialInterval ∧
    scenarioRetryPolicy.RandomizeJitter = false ∧
    (scenarioRetryPolicy.calculateBackoff 1 []).1 ≤
      (scenarioRetryPolicy.calculateBackoff 2 []).1 :=
  ⟨le_rfl, by norm_num, by norm_num [scenarioRetryPolicy],
   by norm_num [scenarioRetryPolicy], rfl,
   (backoff_monotone_until_cap scenarioRetryPolicy 1 2 [] [] le_rfl (by norm_num)
     (by norm_num [scenarioRetryPolicy]) (by norm_num [scenarioRetryPolicy]) rfl).1⟩

/-- C7 (counterexample): `MultiTierRateLimiter.Wait` for a previously unseen
tier does NOT lazily create a limiter — it fails with a "tier not found" error
and leaves the limiter map unchanged (no entry is created). -/
theorem per_key_limiter_counterexample :
    (newMultiTierRateLimiter.wait "gold").1 = some (Err.base ("tier " ++ "gold" ++ " not found")) ∧
    ((newMultiTierRateLimiter.wait "gold").2.limiters.lookup "gold") = none := by
  exact ⟨rfl, rfl⟩

/-- C7 (amended): the per-user middleware creates a limiter for an unseen user
lazily on first use, admits the request through the fresh full bucket, and the
map entry persists (with one token consumed); the multi-tier variant, in
contrast, does not create lazily: `Wait` on an unseen tier returns a
"tier not found" error and leaves the map untouched (tiers enter the map only
via `AddTier` and are never removed). -/
theorem per_user_lazy_creation (rps : ℚ) (burst : Int)
    (st : List (String × TokenLimiter)) (userID : String)
    (m : MultiTierRateLimiter) (tier : String)
    (hnew : st.lookup userID = none) (hb : 1 ≤ burst)
    (hmt : m.limiters.lookup tier = none) :
    (perUserHandle rps burst st userID).1 = HandlerResult.next ∧
    ((perUserHandle rps burst st userID).2.lookup userID) =
      some { rps := rps, burst := burst, tokens := burst - 1 } ∧
    (m.wait tier).1 = some (Err.base ("tier " ++ tier ++ " not found")) ∧
    (m.wait tier).2 = m := by
  refine ⟨?_, ?_, ?_, ?_⟩
  · unfold perUserHandle
    rw [hnew]
    simp [newTokenLimiter, TokenLimiter.allow, hb]
  · unfold perUserHandle
    rw [hnew]
    simp [newTokenLimiter, TokenLimiter.allow, hb, updateLimiter, List.lookup]
  · unfold MultiTierRateLimiter.wait
    rw [hmt]
  · unfold MultiTierRateLimiter.wait
    rw [hmt]

/-- Witness for C7 (amended): user "alice" unseen with burst 2; tier "gold"
unseen in a fresh multi-tier limiter. -/
theorem per_user_lazy_creation_witness :
    (([] : List (String × TokenLimiter)).lookup "alice" = none) ∧
    (1 : Int) ≤ 2 ∧
    (newMultiTierRateLimiter.limiters.lookup "gold" = none) ∧
    ((perUserHandle 5 2 [] "alice").1 = HandlerResult.next ∧
     ((perUserHandle 5 2 [] "alice").2.lookup "alice") =
       some { rps := (5 : ℚ), burst := (2 : Int), tokens := (2 : Int) - 1 } ∧
     (newMultiTierRateLimiter.wait "gold").1 =
       some (Err.base ("tier " ++ "gold" ++ " not found")) ∧
     (newMultiTierRateLimiter.wait "gold").2 = newMultiTierRateLimiter) :=
  ⟨rfl, by norm_num, rfl,
    per_user_lazy_creation 5 2 [] "alice" newMultiTierRateLimiter "gold" rfl (by norm_num) rfl⟩

/-- C9: `ExecuteWithFallback` invokes the fallback only for the breaker's
structural rejections. For an ordinary operation failure in Closed state the
result is the same with or without a fallback, the error propagates to the
caller unchanged, and the failure still counts toward the breaker's tally
(consecutive and total failure counts increment, assuming the failure does not
trip the threshold); while Open, or HalfOpen over the probe cap, the rejection
error triggers the supplied fallback. -/
theorem fallback_only_on_structural_rejection (cb : CircuitBreaker) (v : Int) (e : Err)
    (fb : Int × Option Err) (fallback : Option (Int × Option Err))
    (hstate : cb.state = BreakerState.closed)
    (h1 : errIs e errOpenState = false) (h2 : errIs e errTooManyRequests = false)
    (hnotrip : cb.counts.consecutiveFailures + 1 < cb.failureThreshold) :
    (cb.executeWithFallback (v, some e) fallback =
       cb.executeWithFallback (v, some e) none ∧
     (cb.executeWithFallback (v, some e) fallback).1 = (v, some e) ∧
     (cb.executeWithFallback (v, some e) fallback).2.counts.consecutiveFailures =
       cb.counts.consecutiveFailures + 1 ∧
     (cb.executeWithFallback (v, some e) fallback).2.counts.totalFailures =
       cb.counts.totalFailures + 1) ∧
    (∀ cbo : CircuitBreaker, ∀ fn : Int × Option Err, cbo.state = BreakerState.opened →
       cbo.executeWithFallback fn (some fb) = (fb, cbo)) ∧
    (∀ cbh : CircuitBreaker, ∀ fn : Int × Option Err, cbh.state = BreakerState.halfOpen →
       cbh.maxRequests ≤ cbh.counts.requests →
       cbh.executeWithFallback fn (some fb) = (fb, cbh)) := by
  refine ⟨?_, ?_, ?_⟩
  · obtain ⟨nm, stt, cts, mx, ft⟩ := cb
    simp only at hstate hnotrip
    subst hstate
    unfold CircuitBreaker.executeWithFallback CircuitBreaker.execute CircuitBreaker.onFailure
    simp only [h1, h2, Bool.or_self, Bool.false_or, if_neg (by omega : ¬ ft ≤ cts.consecutiveFailures + 1)]
    simp
  · intro cbo fn h
    obtain ⟨nm, stt, cts, mx, ft⟩ := cbo
    simp only at h
    subst h
    rfl
  · intro cbh fn h hcap
    obtain ⟨nm, stt, cts, mx, ft⟩ := cbh
    simp only at h hcap
    subst h
    unfold CircuitBreaker.executeWithFallback CircuitBreaker.execute
    rw [if_pos hcap]
    rfl

/-- Witness for C9: a fresh closed breaker, an ordinary network failure, and a
concrete fallback. -/
theorem fallback_only_on_structural_rejection_witness :
    freshBreaker.state = BreakerState.closed ∧
    errIs errNetworkError errOpenState = false ∧
    errIs errNetworkError errTooManyRequests = false ∧
    freshBreaker.counts.consecutiveFailures + 1 < freshBreaker.failureThreshold ∧
    ((freshBreaker.executeWithFallback (7, some errNetworkError) (some (1, none))).1 =
       (7, some errNetworkError) ∧
     (freshBreaker.executeWithFallback (7, some errNetworkError) (some (1, none))).2.counts.totalFailures =
       freshBreaker.counts.totalFailures + 1) := by
  have h := fallback_only_on_structural_rejection freshBreaker 7 errNetworkError
    (1, none) (some (1, none)) rfl (by decide) (by decide) (by decide)
  exact ⟨rfl, by decide, by decide, by decide, h.1.2.1, h.1.2.2.2⟩
